import Mathlib

/-!
Verification of the kcare-scripts compatibility checker (kc-compat.py).

The script is embedded shallowly: filesystem and network effects become
explicit state passed to pure Lean functions, Python exceptions become an
`Except` error channel, and each `print` call appends an abstract message
to an output log.  Machine integers are `Nat` with explicit `% 2 ^ 32`
where 32-bit overflow matters (the SHA-1 compression function).
-/

namespace KcCompat

/-! ### SHA-1 over `Nat` (hashlib.sha1, as used by get_kernel_hash_from_data)

Words are natural numbers kept below `2 ^ 32` by explicit reduction.
Messages are byte lists (each entry `< 256` in practice).
-/

/-- `2 ^ 32`, the word modulus of SHA-1. -/
def w32 : Nat := 4294967296

/-- Left rotation of a 32-bit word by `n` places. -/
def rotl (n x : Nat) : Nat := ((x <<< n) ||| (x >>> (32 - n))) % w32

/-- A big-endian 32-bit word from the first four bytes of a list. -/
def wordOfBytes : List Nat → Nat
  | b0 :: b1 :: b2 :: b3 :: _ => ((((b0 <<< 8) ||| b1) <<< 8 ||| b2) <<< 8) ||| b3
  | _ => 0

/-- `k` consecutive big-endian words from a byte list. -/
def toWords : Nat → List Nat → List Nat
  | 0, _ => []
  | k + 1, bytes => wordOfBytes bytes :: toWords k (bytes.drop 4)

/-- One message-schedule extension step, iterated `k` times. -/
def extendWords (ws : List Nat) : Nat → List Nat
  | 0 => ws
  | k + 1 =>
    let n := ws.length
    extendWords
      (ws ++ [rotl 1 (((ws.getD (n - 3) 0) ^^^ (ws.getD (n - 8) 0)) ^^^
        ((ws.getD (n - 14) 0) ^^^ (ws.getD (n - 16) 0)))]) k

/-- The five-word SHA-1 working state. -/
structure Sha1State where
  a : Nat
  b : Nat
  c : Nat
  d : Nat
  e : Nat
deriving DecidableEq

/-- Round function of SHA-1 (choice / parity / majority / parity). -/
def sha1F (i b c d : Nat) : Nat :=
  if i < 20 then (b &&& c) ||| ((b ^^^ 4294967295) &&& d)
  else if i < 40 then (b ^^^ c) ^^^ d
  else if i < 60 then ((b &&& c) ||| (b &&& d)) ||| (c &&& d)
  else (b ^^^ c) ^^^ d

/-- Round constants of SHA-1. -/
def sha1K (i : Nat) : Nat :=
  if i < 20 then 1518500249
  else if i < 40 then 1859775393
  else if i < 60 then 2400959708
  else 3395469782

/-- One SHA-1 round. -/
def sha1Step (st : Sha1State) (i wi : Nat) : Sha1State :=
  ⟨(rotl 5 st.a + sha1F i st.b st.c st.d + st.e + sha1K i + wi) % w32,
    st.a, rotl 30 st.b, st.c, st.d⟩

/-- All rounds over a word schedule, starting at round index `i`. -/
def sha1Rounds (st : Sha1State) (i : Nat) : List Nat → Sha1State
  | [] => st
  | wi :: ws => sha1Rounds (sha1Step st i wi) (i + 1) ws

/-- Compress one 64-byte chunk into the running state. -/
def processChunk (h : Sha1State) (chunk : List Nat) : Sha1State :=
  let st := sha1Rounds h 0 (extendWords (toWords 16 chunk) 64)
  ⟨(h.a + st.a) % w32, (h.b + st.b) % w32, (h.c + st.c) % w32,
    (h.d + st.d) % w32, (h.e + st.e) % w32⟩

/-- Eight big-endian bytes of a 64-bit length value. -/
def bytesBE8 (n : Nat) : List Nat :=
  [(n >>> 56) % 256, (n >>> 48) % 256, (n >>> 40) % 256, (n >>> 32) % 256,
    (n >>> 24) % 256, (n >>> 16) % 256, (n >>> 8) % 256, n % 256]

/-- Merkle–Damgård padding: `0x80`, zeros to 56 mod 64, 64-bit bit length. -/
def sha1Pad (msg : List Nat) : List Nat :=
  msg ++ (128 :: List.replicate ((119 - msg.length % 64) % 64) 0) ++
    bytesBE8 (8 * msg.length)

/-- Fold `processChunk` over `k` 64-byte chunks. -/
def sha1ChunksGo (h : Sha1State) (bytes : List Nat) : Nat → Sha1State
  | 0 => h
  | k + 1 => sha1ChunksGo (processChunk h (bytes.take 64)) (bytes.drop 64) k

/-- The SHA-1 initialisation vector. -/
def sha1Init : Sha1State :=
  ⟨1732584193, 4023233417, 2562383102, 271733878, 3285377520⟩

/-- The full SHA-1 digest state of a byte message. -/
def sha1Digest (msg : List Nat) : Sha1State :=
  sha1ChunksGo sha1Init (sha1Pad msg) ((sha1Pad msg).length / 64)

/-- The sixteen lowercase hexadecimal digit characters. -/
def hexChars : List Char := ("0123456789abcdef").toList

/-- Lowercase hexadecimal digit of `n % 16`. -/
def hexDigit (n : Nat) : Char := hexChars.getD (n % 16) (Char.ofNat 48)

/-- Eight lowercase hex characters of a 32-bit word, most significant first. -/
def wordHex (n : Nat) : List Char :=
  [hexDigit (n >>> 28), hexDigit (n >>> 24), hexDigit (n >>> 20), hexDigit (n >>> 16),
    hexDigit (n >>> 12), hexDigit (n >>> 8), hexDigit (n >>> 4), hexDigit n]

/-- `get_kernel_hash_from_data`: the 40-character lowercase hex SHA-1 digest
of the raw bytes (`sha1(version_data).hexdigest()`). -/
def get_kernel_hash_from_data (version_data : List Nat) : String :=
  let st := sha1Digest version_data
  ⟨wordHex st.a ++ wordHex st.b ++ wordHex st.c ++ wordHex st.d ++ wordHex st.e⟩

/-! ### Filesystem, network, and exception model -/

/-- State of the `/etc/os-release` file as `get_distro_info` can observe it:
absent (`os.path.exists` is false), present but unreadable (`open` raises
`IOError`/`OSError`), or readable with a list of lines. -/
inductive OsReleaseFile where
  | missing
  | unreadable
  | content (lines : List (List Char))
deriving DecidableEq

/-- The filesystem facts the script probes.  `proc1Cgroup = none` and
`procVersion = none` mean the corresponding `open`/`read` raises. -/
structure FS where
  vzVeinfo : Bool
  vzVersion : Bool
  proc1Cgroup : Option (List Char)
  procVersion : Option (List Nat)
  osRelease : OsReleaseFile
deriving DecidableEq

/-- The Python exception classes the script distinguishes, in the order its
handlers test them: `HTTPError`, `URLError`, `IOError`/`OSError`, and any
other `Exception`. -/
inductive PyExc where
  | httpError (code : Nat)
  | urlError (reason : String)
  | ioError (message : String)
  | otherExc (message : String)
deriving DecidableEq

/-- Outcome of `urlopen`: it either returns a response object or raises. -/
inductive NetResult where
  | success
  | raised (e : PyExc)
deriving DecidableEq

/-! ### Container detection -/

/-- `inside_vz_container`: both probes are `os.path.exists`, which never
raises, so the function is total and boolean. -/
def inside_vz_container (fs : FS) : Bool :=
  fs.vzVeinfo && ! fs.vzVersion

/-- Does the pattern occur at the head of the list? (`str.startswith`). -/
def leadsWith : List Char → List Char → Bool
  | _, [] => true
  | [], _ :: _ => false
  | c :: s, p :: ps => c == p && leadsWith s ps

/-- Python substring containment `needle in haystack`. -/
def hasInfix (haystack needle : List Char) : Bool :=
  match haystack with
  | [] => needle.isEmpty
  | _ :: t => leadsWith haystack needle || hasInfix t needle

/-- The marker segment searched for in `/proc/1/cgroup`. -/
def lxcMarker : List Char := ['/', 'l', 'x', 'c', '/']

/-- `inside_lxc_container`: `open` of `/proc/1/cgroup` is unguarded, so an
unreadable file makes the call raise instead of returning a boolean. -/
def inside_lxc_container (fs : FS) : Except PyExc Bool :=
  match fs.proc1Cgroup with
  | none => .error (.ioError "cannot read /proc/1/cgroup")
  | some s => .ok (hasInfix s lxcMarker)

/-- The short-circuit `inside_vz_container() or inside_lxc_container()`
as evaluated by `main` (outside any try block). -/
def containerCheck (fs : FS) : Except PyExc Bool :=
  if inside_vz_container fs then .ok true
  else inside_lxc_container fs

/-! ### Distribution identity (`get_distro_info`) -/

/-- Python whitespace as classified by `str.strip()` (ASCII subset). -/
def pyIsSpace (c : Char) : Bool :=
  c == ' ' || c == Char.ofNat 9 || c == Char.ofNat 10 || c == Char.ofNat 13 ||
    c == Char.ofNat 11 || c == Char.ofNat 12

/-- Drop leading characters satisfying a predicate. -/
def stripLeft (p : Char → Bool) : List Char → List Char
  | [] => []
  | c :: s => if p c then stripLeft p s else c :: s

/-- Drop leading and trailing characters satisfying a predicate
(Python `str.strip(chars)`: every such character is removed from both
ends, not just one layer). -/
def stripBoth (p : Char → Bool) (s : List Char) : List Char :=
  (stripLeft p (stripLeft p s).reverse).reverse

/-- Is the character a single or double quote? (`strip('"\'')`). -/
def quoteChar (c : Char) : Bool := c == Char.ofNat 34 || c == Char.ofNat 39

/-- Everything after the first `=` (`line.split('=', 1)[1]`). -/
def afterEq : List Char → List Char
  | [] => []
  | c :: s => if c == '=' then s else afterEq s

/-- `parse_value`: value after the first `=`, whitespace-stripped, then
stripped of all enclosing quote characters. -/
def parse_value (line : List Char) : List Char :=
  stripBoth quoteChar (stripBoth pyIsSpace (afterEq line))

/-- The key tested by `line.startswith('ID=')`. -/
def idKey : List Char := ['I', 'D', '=']

/-- The key tested by `line.startswith('VERSION_ID=')`. -/
def versionIdKey : List Char :=
  ['V', 'E', 'R', 'S', 'I', 'O', 'N', '_', 'I', 'D', '=']

/-- The line loop of `get_distro_info`: sequential overwrite of the two
accumulators, each line stripped before the `startswith` tests. -/
def distroLoop : List (List Char) → Option (List Char) → Option (List Char) →
    Option (List Char) × Option (List Char)
  | [], dn, dv => (dn, dv)
  | l :: ls, dn, dv =>
    let line := stripBoth pyIsSpace l
    if leadsWith line idKey then distroLoop ls (some (parse_value line)) dv
    else if leadsWith line versionIdKey then distroLoop ls dn (some (parse_value line))
    else distroLoop ls dn dv

/-- `get_distro_info`: `(None, None)` when the file is missing or raises,
otherwise the line loop starting from two empty accumulators. -/
def get_distro_info : OsReleaseFile → Option (List Char) × Option (List Char)
  | .missing => (none, none)
  | .unreadable => (none, none)
  | .content lines => distroLoop lines none none

/-! ### Supported distributions and the remote check -/

/-- `SUPPORTED_DISTROS`. -/
def SUPPORTED_DISTROS : List (List Char) :=
  (["almalinux", "amzn", "centos", "cloudlinux", "debian", "ol", "raspbian",
    "rhel", "rocky", "ubuntu", "proxmox"] : List String).map String.toList

/-- `is_distro_supported`: membership in the fixed set. -/
def is_distro_supported (distro_name : List Char) : Bool :=
  SUPPORTED_DISTROS.contains distro_name

/-- `is_compat`: `urlopen` returning means `True`; an `HTTPError` with code
404 means `False`; every other `HTTPError` is re-raised with its code, a
`URLError` is re-raised with its reason, and any other exception is not
caught at all. -/
def is_compat (net : NetResult) : Except PyExc Bool :=
  match net with
  | .success => .ok true
  | .raised (.httpError code) =>
    if code == 404 then .ok false else .error (.httpError code)
  | .raised e => .error e

/-! ### Output and `main` -/

/-- One printed message.  Payloads carry the dynamic parts; the raw bytes of
the kernel line are kept as read (`main` renders them with
`decode('utf-8', errors='replace')`, which never raises). -/
inductive Msg where
  | unsupportedContainer
  | reportHeader
  | reportHash (h : String)
  | reportDistro (s : List Char)
  | reportVersion (s : List Char)
  | reportKernel (raw : List Nat)
  | reportFooter
  | compatible
  | needsReview
  | supportSupported
  | supportGeneric
  | connHttp (code : Nat)
  | connUrl (reason : String)
  | sysErr (message : String)
  | unexpectedErr (message : String)
deriving DecidableEq

/-- `myprint`: one message, or nothing in silent mode. -/
def myprint (silent : Bool) (m : Msg) : List Msg :=
  if silent then [] else [m]

/-- `sys.argv[1] == '--silent' or sys.argv[1] == '-q'` (argument list given
without the program name). -/
def argSilent (args : List String) : Bool :=
  match args with
  | [] => false
  | a :: _ => a == "--silent" || a == "-q"

/-- `sys.argv[1] == '--report'`. -/
def argReport (args : List String) : Bool :=
  match args with
  | [] => false
  | a :: _ => a == "--report"

/-- Python `x or 'Unknown'` on an optional string (`None` and the empty
string are falsy). -/
def orUnknown (o : Option (List Char)) : List Char :=
  match o with
  | none => ['U', 'n', 'k', 'n', 'o', 'w', 'n']
  | some s => if s.isEmpty then ['U', 'n', 'k', 'n', 'o', 'w', 'n'] else s

/-- Python truthiness of the optional distro name. -/
def distroTruthy (o : Option (List Char)) : Bool :=
  match o with
  | none => false
  | some s => ! s.isEmpty

/-- The bytes `main` hashes: `/proc/version` content, or `b''` when the
guarded read raises. -/
def mainVersionData (fs : FS) : List Nat :=
  fs.procVersion.getD []

/-- The fixed-order six-line diagnostic block printed under `--report`. -/
def reportBlock (kernel_hash : String) (dn dv : Option (List Char))
    (version_data : List Nat) : List Msg :=
  [.reportHeader, .reportHash kernel_hash, .reportDistro (orUnknown dn),
    .reportVersion (orUnknown dv), .reportKernel version_data, .reportFooter]

/-- Equality of `Except` values is decidable componentwise. -/
def exceptDecEq {α β : Type} [DecidableEq α] [DecidableEq β]
    (x y : Except α β) : Decidable (x = y) :=
  match x, y with
  | .error a, .error b =>
    if h : a = b then .isTrue (congrArg Except.error h)
    else .isFalse (fun hh => h (Except.error.inj hh))
  | .error _, .ok _ => .isFalse (fun hh => Except.noConfusion hh)
  | .ok _, .error _ => .isFalse (fun hh => Except.noConfusion hh)
  | .ok a, .ok b =>
    if h : a = b then .isTrue (congrArg Except.ok h)
    else .isFalse (fun hh => h (Except.ok.inj hh))

instance {α β : Type} [DecidableEq α] [DecidableEq β] : DecidableEq (Except α β) :=
  exceptDecEq

/-- Combined result of one run of `main`: the printed log and either a
returned exit code or an exception that escaped `main`. -/
structure RunResult where
  output : List Msg
  result : Except PyExc Nat
deriving DecidableEq

/-- The world `main` runs against. -/
structure World where
  fs : FS
  net : NetResult
deriving DecidableEq

/-- `main`, as a function of the argument vector (without the program name)
and the world.  The container check runs outside the try block, so its
exception escapes; the remote check runs inside and its exceptions are
classified by the four handlers. -/
def main (args : List String) (w : World) : RunResult :=
  let silent := argSilent args
  let report := argReport args
  match containerCheck w.fs with
  | .error e => ⟨[], .error e⟩
  | .ok true => ⟨myprint silent .unsupportedContainer, .ok 2⟩
  | .ok false =>
    let version_data := mainVersionData w.fs
    let kernel_hash := get_kernel_hash_from_data version_data
    let di := get_distro_info w.fs.osRelease
    let out0 := if report then reportBlock kernel_hash di.1 di.2 version_data else []
    match is_compat w.net with
    | .ok true => ⟨out0 ++ myprint silent .compatible, .ok 0⟩
    | .ok false =>
      if distroTruthy di.1 && is_distro_supported (di.1.getD []) then
        ⟨out0 ++ myprint silent .needsReview ++ myprint silent .supportSupported, .ok 1⟩
      else
        ⟨out0 ++ myprint silent .needsReview ++ myprint silent .supportGeneric, .ok 1⟩
    | .error (.httpError code) => ⟨out0 ++ myprint silent (.connHttp code), .ok 3⟩
    | .error (.urlError r) => ⟨out0 ++ myprint silent (.connUrl r), .ok 3⟩
    | .error (.ioError m) => ⟨out0 ++ myprint silent (.sysErr m), .ok 4⟩
    | .error (.otherExc m) => ⟨out0 ++ myprint silent (.unexpectedErr m), .ok 5⟩

/-! ### Specification-side definitions

These follow the wording of the specification (not the code) and exist to be
compared with the definitions above. -/

/-- Spec wording: strip a single layer of enclosing single or double quotes
(one leading and one trailing quote character, removed together). -/
def stripSingleLayer (s : List Char) : List Char :=
  match s with
  | c :: c2 :: rest =>
    if quoteChar c && quoteChar ((c2 :: rest).getLast (by simp)) then
      (c2 :: rest).dropLast
    else s
  | _ => s

/-- Spec wording of the exit-code table: 2 on container, 0 on a compatible
verdict, 1 on 404, 3 on other HTTP errors and URL errors, 4 on local I/O
errors during the check, 5 on any other failure. -/
def claimedExitCode (containerDetected : Bool) (net : NetResult) : Nat :=
  if containerDetected then 2
  else
    match net with
    | .success => 0
    | .raised (.httpError code) => if code = 404 then 1 else 3
    | .raised (.urlError _) => 3
    | .raised (.ioError _) => 4
    | .raised (.otherExc _) => 5

/-- Spec wording of last-match-wins: the value of the last line whose
stripped form starts with the key, if any. -/
def lastMatch (key : List Char) : List (List Char) → Option (List Char)
  | [] => none
  | l :: ls =>
    match lastMatch key ls with
    | some v => some v
    | none =>
      let t := stripBoth pyIsSpace l
      if leadsWith t key then some (parse_value t) else none

/-- Spec wording of the support-message choice: the dedicated message iff
the detected distro name is a member of the allow-list; an absent name
selects the generic message. -/
def claimSupportMsg (dn : Option (List Char)) : Msg :=
  match dn with
  | none => .supportGeneric
  | some n => if is_distro_supported n then .supportSupported else .supportGeneric

/-- A plain world: no container markers, readable empty `/proc/1/cgroup`
and `/proc/version`, no `/etc/os-release`. -/
def fsPlain : FS := ⟨false, false, some [], some [], .missing⟩

/-! ### Theorems -/

/-- C9: for every combination of the two Virtuozzo marker files,
`inside_vz_container` is true iff `/proc/vz/veinfo` exists and
`/proc/vz/version` does not; in particular the three listed truth-table
rows hold for every state of the remaining filesystem. -/
theorem vz_container_truth_table (fs : FS) :
    (inside_vz_container fs = true ↔ fs.vzVeinfo = true ∧ fs.vzVersion = false) ∧
    (∀ cg pv osr, inside_vz_container ⟨true, false, cg, pv, osr⟩ = true) ∧
    (∀ cg pv osr, inside_vz_container ⟨false, false, cg, pv, osr⟩ = false) ∧
    (∀ cg pv osr, inside_vz_container ⟨true, true, cg, pv, osr⟩ = false) := by
  refine ⟨?_, fun _ _ _ => rfl, fun _ _ _ => rfl, fun _ _ _ => rfl⟩
  simp [inside_vz_container]

/-- C3: `is_compat` returns `true` on a non-error response, returns `false`
exactly when the HTTP error code is 404, and otherwise propagates the HTTP
status or the transport failure reason as an error the caller can read. -/
theorem is_compat_classification :
    (is_compat .success = .ok true) ∧
    (∀ code, is_compat (.raised (.httpError code)) = .ok false ↔ code = 404) ∧
    (∀ code, code ≠ 404 →
      is_compat (.raised (.httpError code)) = .error (.httpError code)) ∧
    (∀ reason, is_compat (.raised (.urlError reason)) = .error (.urlError reason)) := by
  refine ⟨rfl, ?_, ?_, fun reason => rfl⟩
  · intro code
    constructor
    · intro h
      by_contra hne
      simp [is_compat, hne] at h
    · intro h
      subst h
      rfl
  · intro code h
    simp [is_compat, h]

/-- Witness for C3 at code 500. -/
theorem is_compat_classification_witness :
    is_compat (.raised (.httpError 500)) = .error (.httpError 500) :=
  is_compat_classification.2.2.1 500 (by decide)

/-- C10: both flags are computed solely from the first positional argument,
and no first argument activates both, so a silent run is never a report
run. -/
theorem flags_mutually_exclusive (args1 args2 : List String)
    (h : args1.head? = args2.head?) :
    argSilent args1 = argSilent args2 ∧ argReport args1 = argReport args2 ∧
    ¬(argSilent args1 = true ∧ argReport args1 = true) := by
  cases args1 with
  | nil =>
    cases args2 with
    | nil => simp [argSilent, argReport]
    | cons b bs => simp at h
  | cons a as =>
    cases args2 with
    | nil => simp at h
    | cons b bs =>
      simp at h
      subst h
      refine ⟨rfl, rfl, ?_⟩
      rintro ⟨hs, hr⟩
      simp [argSilent] at hs
      simp [argReport] at hr
      subst hr
      rcases hs with hs | hs <;> exact absurd hs (by decide)

/-- Witness for C10 on two argument vectors sharing the head. -/
theorem flags_mutually_exclusive_witness :
    argSilent ["--report"] = argSilent ["--report", "x"] ∧
    argReport ["--report"] = argReport ["--report", "x"] ∧
    ¬(argSilent ["--report"] = true ∧ argReport ["--report"] = true) :=
  flags_mutually_exclusive ["--report"] ["--report", "x"] rfl

/-- C1 counterexample: with `/proc/1/cgroup` unreadable, `inside_lxc_container`
does not return any boolean — the unguarded `open` raises. -/
theorem lxc_detection_raises :
    ¬∃ b, inside_lxc_container ⟨false, false, none, none, .missing⟩ =
      Except.ok b := by
  rintro ⟨b, h⟩
  simp [inside_lxc_container] at h

/-- C1 amended: `inside_vz_container` is always boolean (existence probes
only); `inside_lxc_container` returns a boolean exactly when `/proc/1/cgroup`
is readable, and when it is not, the `IOError` escapes the combined
container check unless a Virtuozzo container was already detected. -/
theorem container_detection_totality (fs : FS) :
    ((∃ b, inside_lxc_container fs = Except.ok b) ↔ fs.proc1Cgroup ≠ none) ∧
    (∀ s, fs.proc1Cgroup = some s →
      inside_lxc_container fs = Except.ok (hasInfix s lxcMarker)) ∧
    (fs.proc1Cgroup = none → inside_vz_container fs = false →
      containerCheck fs = Except.error (.ioError "cannot read /proc/1/cgroup")) := by
  refine ⟨?_, ?_, ?_⟩
  · cases hcg : fs.proc1Cgroup with
    | none => simp [inside_lxc_container, hcg]
    | some s => simp [inside_lxc_container, hcg]
  · intro s hs
    simp [inside_lxc_container, hs]
  · intro hcg hvz
    simp [containerCheck, hvz, inside_lxc_container, hcg]

/-- Witness for C1 at a concrete filesystem with unreadable cgroup file. -/
theorem container_detection_totality_witness :
    containerCheck ⟨false, false, none, none, .missing⟩ =
      Except.error (.ioError "cannot read /proc/1/cgroup") :=
  (container_detection_totality ⟨false, false, none, none, .missing⟩).2.2 rfl rfl

/-- C2 counterexample: a run with no detected Virtuozzo container and an
unreadable `/proc/1/cgroup` returns no exit code at all — `main` propagates
the `IOError` (even though the remote check would have reported
compatible, where the claim requires code 0). -/
theorem main_propagates_cgroup_error :
    main [] ⟨⟨false, false, none, none, .missing⟩, .success⟩ =
      ⟨[], .error (.ioError "cannot read /proc/1/cgroup")⟩ := rfl

/-- C2 amended: whenever the container check itself does not raise, the exit
code of `main` is exactly the claimed table: 2 on a detected container
(regardless of the network), 0 on compatible, 1 on 404, 3 on other HTTP and
URL errors, 4 on a local I/O error during the check, 5 on anything else. -/
theorem main_exit_codes (args : List String) (w : World) (b : Bool)
    (h : containerCheck w.fs = Except.ok b) :
    (main args w).result = Except.ok (claimedExitCode b w.net) := by
  cases b with
  | true => simp [main, h, claimedExitCode]
  | false =>
    cases hn : w.net with
    | success => simp [main, h, hn, is_compat, claimedExitCode]
    | raised e =>
      cases e with
      | httpError code =>
        by_cases hc : code = 404
        · subst hc
          simp [main, h, hn, is_compat, claimedExitCode]
          split <;> rfl
        · simp [main, h, hn, is_compat, hc, claimedExitCode]
      | urlError r => simp [main, h, hn, is_compat, claimedExitCode]
      | ioError m => simp [main, h, hn, is_compat, claimedExitCode]
      | otherExc m => simp [main, h, hn, is_compat, claimedExitCode]

/-- Witness for C2: a detected Virtuozzo container exits with code 2. -/
theorem main_exit_codes_witness :
    (main [] ⟨⟨true, false, some [], some [], .missing⟩, .success⟩).result =
      Except.ok (claimedExitCode true .success) :=
  main_exit_codes [] ⟨⟨true, false, some [], some [], .missing⟩, .success⟩ true rfl

/-- C6: the result of `main` (exit code or escaping exception) does not
depend on the argument vector at all — in particular two runs differing
only in the silent flag agree — and a silent run prints nothing, report
lines included. -/
theorem silent_mode (args1 args2 : List String) (w : World) :
    (main args1 w).result = (main args2 w).result ∧
    (argSilent args1 = true → (main args1 w).output = []) := by
  constructor
  · cases hc : containerCheck w.fs with
    | error e => simp [main, hc]
    | ok b =>
      cases b with
      | true => simp [main, hc]
      | false =>
        cases hn : is_compat w.net with
        | ok bb =>
          cases bb with
          | true => simp [main, hc, hn]
          | false =>
            simp only [main, hc, hn]
            split <;> rfl
        | error e => cases e <;> simp [main, hc, hn]
  · intro hs
    have hr : argReport args1 = false := by
      cases args1 with
      | nil => simp [argSilent] at hs
      | cons a as =>
        simp [argSilent] at hs
        rcases hs with h | h <;> (subst h; rfl)
    cases hc : containerCheck w.fs with
    | error e => simp [main, hc]
    | ok b =>
      cases b with
      | true => simp [main, hc, hs, myprint]
      | false =>
        cases hn : is_compat w.net with
        | ok bb =>
          cases bb with
          | true => simp [main, hc, hn, hs, hr, myprint]
          | false =>
            simp only [main, hc, hn, hs, hr, myprint]
            split <;> simp
        | error e => cases e <;> simp [main, hc, hn, hs, hr, myprint]

/-- Witness for C6: a silent compatible run prints nothing and returns the
same result as the flagless run. -/
theorem silent_mode_witness :
    (main ["--silent"] ⟨fsPlain, .success⟩).output = [] ∧
    (main ["--silent"] ⟨fsPlain, .success⟩).result =
      (main [] ⟨fsPlain, .success⟩).result :=
  ⟨(silent_mode ["--silent"] [] ⟨fsPlain, .success⟩).2 rfl,
    (silent_mode ["--silent"] [] ⟨fsPlain, .success⟩).1⟩

/-- Every hex digit produced by `hexDigit` is a lowercase hex character. -/
theorem hexDigit_contains (n : Nat) : hexChars.contains (hexDigit n) = true := by
  have h : n % 16 < 16 := Nat.mod_lt _ (by decide)
  unfold hexDigit
  generalize n % 16 = m at h ⊢
  interval_cases m <;> rfl

/-- Membership form of `hexDigit_contains`. -/
theorem hexDigit_mem (n : Nat) : hexDigit n ∈ hexChars := by
  simpa using hexDigit_contains n

set_option maxRecDepth 4000 in
/-- C5: the kernel hash is a deterministic function of the raw bytes, always
40 lowercase hex characters; the empty input has the fixed known SHA-1
digest; and `main` hashes exactly the bytes read from `/proc/version`,
substituting the empty byte string when the read raises. -/
theorem kernel_hash_properties :
    (∀ B : List Nat, get_kernel_hash_from_data B = get_kernel_hash_from_data B) ∧
    (∀ B : List Nat, (get_kernel_hash_from_data B).length = 40) ∧
    (∀ B : List Nat,
      ((get_kernel_hash_from_data B).data.all fun c => hexChars.contains c) = true) ∧
    (get_kernel_hash_from_data [] = "da39a3ee5e6b4b0d3255bfef95601890afd80709") ∧
    (∀ fs : FS, fs.procVersion = none → mainVersionData fs = []) ∧
    (∀ fs : FS, ∀ d, fs.procVersion = some d → mainVersionData fs = d) := by
  refine ⟨fun B => rfl, fun B => rfl, ?_, by decide, ?_, ?_⟩
  · intro B
    simp [get_kernel_hash_from_data, wordHex, hexDigit_mem]
  · intro fs h
    simp [mainVersionData, h]
  · intro fs d h
    simp [mainVersionData, h]

/-- Witness for C5: the read-failure and successful-read substitutions at
concrete filesystems. -/
theorem kernel_hash_properties_witness :
    mainVersionData ⟨false, false, some [], none, .missing⟩ = [] ∧
    mainVersionData ⟨false, false, some [], some [76], .missing⟩ = [76] :=
  ⟨kernel_hash_properties.2.2.2.2.1 _ rfl,
    kernel_hash_properties.2.2.2.2.2 _ _ rfl⟩

/-- C8: on a 404 verdict outside a container the exit code is 1 in both
sub-cases, and a non-silent run prints NEEDS REVIEW followed by the message
selected by allow-list membership of the detected distro name (an absent or
empty name selects the generic message). -/
theorem needs_review_message_selection (args : List String) (w : World)
    (hc : containerCheck w.fs = Except.ok false)
    (hn : w.net = NetResult.raised (.httpError 404)) :
    (main args w).result = Except.ok 1 ∧
    (argSilent args = false → (main args w).output =
      (if argReport args then
        reportBlock (get_kernel_hash_from_data (mainVersionData w.fs))
          (get_distro_info w.fs.osRelease).1 (get_distro_info w.fs.osRelease).2
          (mainVersionData w.fs)
      else []) ++
      [Msg.needsReview, claimSupportMsg (get_distro_info w.fs.osRelease).1]) := by
  have hcompat : is_compat w.net = .ok false := by simp [hn, is_compat]
  have hmsg : (if distroTruthy (get_distro_info w.fs.osRelease).1 &&
      is_distro_supported ((get_distro_info w.fs.osRelease).1.getD []) then
      Msg.supportSupported else Msg.supportGeneric) =
      claimSupportMsg (get_distro_info w.fs.osRelease).1 := by
    cases hd : (get_distro_info w.fs.osRelease).1 with
    | none => simp [distroTruthy, claimSupportMsg]
    | some nm =>
      by_cases hne : nm.isEmpty = true
      · have hnil : nm = [] := by simpa using hne
        subst hnil
        simp [distroTruthy, claimSupportMsg, is_distro_supported, SUPPORTED_DISTROS]
      · simp [distroTruthy, hne, claimSupportMsg]
  constructor
  · simp only [main, hc, hcompat]
    split <;> rfl
  · intro hs
    rw [← hmsg]
    by_cases hcond : (distroTruthy (get_distro_info w.fs.osRelease).1 &&
        is_distro_supported ((get_distro_info w.fs.osRelease).1.getD [])) = true
    · simp [main, hc, hcompat, hs, myprint, hcond]
    · simp [main, hc, hcompat, hs, myprint, hcond]

/-- Witness for C8: unknown distro, 404, flagless run. -/
theorem needs_review_witness :
    (main [] ⟨fsPlain, .raised (.httpError 404)⟩).result = Except.ok 1 ∧
    (main [] ⟨fsPlain, .raised (.httpError 404)⟩).output =
      [Msg.needsReview, Msg.supportGeneric] := by
  have h := needs_review_message_selection [] ⟨fsPlain, .raised (.httpError 404)⟩ rfl rfl
  exact ⟨h.1, by simpa [argReport, fsPlain, get_distro_info, claimSupportMsg] using h.2 rfl⟩

set_option maxRecDepth 8000 in
/-- C7 counterexample: a report-mode run outside a container whose remote
check answers 404 prints eight lines (six report lines, NEEDS REVIEW, and
the support message), not seven. -/
theorem report_404_not_seven_lines :
    ¬(main ["--report"] ⟨fsPlain, .raised (.httpError 404)⟩).output.length = 7 := by
  decide

/-- C7 amended: outside a container a report run prints the six-line
diagnostic block in fixed order followed by exactly the output of the
flagless run (so the verdict adds one line, or two in the needs-review
case), and the exit-code logic is unaffected by the report flag. -/
theorem report_block_then_verdict (args : List String) (w : World)
    (hr : argReport args = true) (hc : containerCheck w.fs = Except.ok false) :
    (main args w).output =
      reportBlock (get_kernel_hash_from_data (mainVersionData w.fs))
        (get_distro_info w.fs.osRelease).1 (get_distro_info w.fs.osRelease).2
        (mainVersionData w.fs) ++ (main [] w).output ∧
    (main args w).result = (main [] w).result ∧
    (∀ h dn dv d, (reportBlock h dn dv d).length = 6) := by
  have hs : argSilent args = false := by
    cases args with
    | nil => simp [argReport] at hr
    | cons a as =>
      simp [argReport] at hr
      subst hr
      rfl
  have hr0 : argReport ([] : List String) = false := rfl
  have hs0 : argSilent ([] : List String) = false := rfl
  refine ⟨?_, ?_, fun h dn dv d => rfl⟩
  · cases hcompat : is_compat w.net with
    | ok bb =>
      cases bb with
      | true => simp [main, hc, hcompat, hr, hs, hr0, hs0, myprint]
      | false =>
        simp only [main, hc, hcompat, hr, hs, hr0, hs0, myprint]
        split <;> simp
    | error e =>
      cases e <;> simp [main, hc, hcompat, hr, hs, hr0, hs0, myprint]
  · cases hcompat : is_compat w.net with
    | ok bb =>
      cases bb with
      | true => simp [main, hc, hcompat]
      | false =>
        simp only [main, hc, hcompat]
        split <;> rfl
    | error e => cases e <;> simp [main, hc, hcompat]

/-- Witness for C7 at a concrete report run. -/
theorem report_block_witness :
    (main ["--report"] ⟨fsPlain, .success⟩).output =
      reportBlock (get_kernel_hash_from_data (mainVersionData fsPlain))
        (get_distro_info fsPlain.osRelease).1 (get_distro_info fsPlain.osRelease).2
        (mainVersionData fsPlain) ++ (main [] ⟨fsPlain, .success⟩).output ∧
    (main ["--report"] ⟨fsPlain, .success⟩).result =
      (main [] ⟨fsPlain, .success⟩).result :=
  ⟨(report_block_then_verdict ["--report"] ⟨fsPlain, .success⟩ rfl rfl).1,
    (report_block_then_verdict ["--report"] ⟨fsPlain, .success⟩ rfl rfl).2.1⟩

/-- A line starting with `VERSION_ID=` does not start with `ID=`. -/
theorem leadsWith_v_not_id (t : List Char)
    (h : leadsWith t versionIdKey = true) : leadsWith t idKey = false := by
  cases t with
  | nil => simp [leadsWith, versionIdKey] at h
  | cons c s =>
    simp [leadsWith, versionIdKey] at h
    simp [leadsWith, idKey, h.1]

/-- A line starting with `ID=` does not start with `VERSION_ID=`. -/
theorem leadsWith_id_not_v (t : List Char)
    (h : leadsWith t idKey = true) : leadsWith t versionIdKey = false := by
  cases t with
  | nil => simp [leadsWith, idKey] at h
  | cons c s =>
    simp [leadsWith, idKey] at h
    simp [leadsWith, versionIdKey, h.1]

/-- Dropping a stripped character on the left. -/
theorem stripLeft_pos (p : Char → Bool) (c : Char) (s : List Char)
    (h : p c = true) : stripLeft p (c :: s) = stripLeft p s := by
  simp [stripLeft, h]

/-- `stripLeft` over an append. -/
theorem stripLeft_append (p : Char → Bool) (s t : List Char) :
    stripLeft p (s ++ t) =
      if (stripLeft p s).isEmpty then stripLeft p t else stripLeft p s ++ t := by
  induction s with
  | nil => simp [stripLeft]
  | cons c s ih =>
    by_cases h : p c = true
    · simp [stripLeft, h, ih]
    · simp [stripLeft, h]

/-- Stripping absorbs a stripped character at the head. -/
theorem stripBoth_cons_pos (p : Char → Bool) (c : Char) (s : List Char)
    (h : p c = true) : stripBoth p (c :: s) = stripBoth p s := by
  unfold stripBoth
  rw [stripLeft_pos p c s h]

/-- Stripping absorbs a stripped character at the end. -/
theorem stripBoth_append_pos (p : Char → Bool) (s : List Char) (c : Char)
    (h : p c = true) : stripBoth p (s ++ [c]) = stripBoth p s := by
  unfold stripBoth
  rw [stripLeft_append]
  by_cases he : (stripLeft p s).isEmpty = true
  · have h0 : stripLeft p s = [] := by simpa using he
    simp [h0, stripLeft, h]
  · simp [he, stripLeft_pos p c _ h]

/-- One unfolding step of `lastMatch`. -/
theorem lastMatch_cons (key l : List Char) (ls : List (List Char)) :
    lastMatch key (l :: ls) =
      match lastMatch key ls with
      | some v => some v
      | none =>
        if leadsWith (stripBoth pyIsSpace l) key then
          some (parse_value (stripBoth pyIsSpace l))
        else none := rfl

/-- The sequential-overwrite loop computes, in each component, the value of
the last matching line (falling back to the accumulator). -/
theorem distroLoop_eq_lastMatch (lines : List (List Char))
    (dn dv : Option (List Char)) :
    distroLoop lines dn dv =
      ((lastMatch idKey lines).elim dn some,
        (lastMatch versionIdKey lines).elim dv some) := by
  induction lines generalizing dn dv with
  | nil => simp [distroLoop, lastMatch]
  | cons l ls ih =>
    by_cases hid : leadsWith (stripBoth pyIsSpace l) idKey = true
    · have hv : leadsWith (stripBoth pyIsSpace l) versionIdKey = false :=
        leadsWith_id_not_v _ hid
      have hstep : distroLoop (l :: ls) dn dv =
          distroLoop ls (some (parse_value (stripBoth pyIsSpace l))) dv := by
        simp [distroLoop, hid]
      rw [hstep, ih, lastMatch_cons, lastMatch_cons]
      cases hA : lastMatch idKey ls <;> cases hB : lastMatch versionIdKey ls <;>
        simp [hid, hv]
    · by_cases hvv : leadsWith (stripBoth pyIsSpace l) versionIdKey = true
      · have hstep : distroLoop (l :: ls) dn dv =
            distroLoop ls dn (some (parse_value (stripBoth pyIsSpace l))) := by
          simp [distroLoop, hid, hvv]
        rw [hstep, ih, lastMatch_cons, lastMatch_cons]
        cases hA : lastMatch idKey ls <;> cases hB : lastMatch versionIdKey ls <;>
          simp [hid, hvv]
      · have hstep : distroLoop (l :: ls) dn dv = distroLoop ls dn dv := by
          simp [distroLoop, hid, hvv]
        rw [hstep, ih, lastMatch_cons, lastMatch_cons]
        cases hA : lastMatch idKey ls <;> cases hB : lastMatch versionIdKey ls <;>
          simp [hid, hvv]

/-- C4 amended: missing or unreadable files give `(none, none)`; otherwise
the name and version are the values of the last (whitespace-stripped) lines
starting with `ID=` and `VERSION_ID=`; values are everything after the
first `=`, whitespace-trimmed, with ALL enclosing quote characters
stripped — adding a quote layer around a value changes nothing. -/
theorem distro_info_characterization :
    (get_distro_info .missing = (none, none)) ∧
    (get_distro_info .unreadable = (none, none)) ∧
    (∀ lines, get_distro_info (.content lines) =
      (lastMatch idKey lines, lastMatch versionIdKey lines)) ∧
    (∀ v, parse_value (idKey ++ v) =
      stripBoth quoteChar (stripBoth pyIsSpace v)) ∧
    (∀ s, stripBoth quoteChar (Char.ofNat 34 :: s ++ [Char.ofNat 34]) =
      stripBoth quoteChar s) := by
  refine ⟨rfl, rfl, ?_, fun v => rfl, ?_⟩
  · intro lines
    have h0 : get_distro_info (.content lines) = distroLoop lines none none := rfl
    rw [h0, distroLoop_eq_lastMatch]
    cases lastMatch idKey lines <;> cases lastMatch versionIdKey lines <;> rfl
  · intro s
    have h34 : quoteChar (Char.ofNat 34) = true := rfl
    calc stripBoth quoteChar (Char.ofNat 34 :: s ++ [Char.ofNat 34])
        = stripBoth quoteChar (s ++ [Char.ofNat 34]) :=
          stripBoth_cons_pos _ _ _ h34
      _ = stripBoth quoteChar s := stripBoth_append_pos _ _ _ h34

/-- C4 counterexample: on the line `ID=""centos""` the code strips both
quote layers and yields `centos`, while stripping a single layer of
enclosing quotes, as claimed, would yield `"centos"`. -/
theorem quote_stripping_counterexample :
    get_distro_info (.content [idKey ++ [Char.ofNat 34, Char.ofNat 34] ++
        ("centos").toList ++ [Char.ofNat 34, Char.ofNat 34]]) =
      (some (("centos").toList), none) ∧
    stripSingleLayer (stripBoth pyIsSpace (afterEq (idKey ++
        [Char.ofNat 34, Char.ofNat 34] ++ ("centos").toList ++
        [Char.ofNat 34, Char.ofNat 34]))) =
      Char.ofNat 34 :: ("centos").toList ++ [Char.ofNat 34] := by
  constructor <;> decide

end KcCompat
